import Mathlib

set_option maxRecDepth 8000
set_option maxHeartbeats 1000000

/-!
Shallow embedding of maubot-msc-resolver
(src/maubot_msc_resolver/msc_resolver.py).

The plugin watches room messages for references of the form "msc"
followed by 1 to 4 digits, resolves each referenced proposal against the
GitHub issue API, and replies with a formatted summary.  The embedding
models the module constants, the `MSC` dataclass, the regex matcher of
the `command.passive` decorator, the dedup loop, the resolution loop
with its fail-fast abort, `_resolve_msc`, `_format_msc`, and the reply
dispatch via `send_notice`.

Modelling conventions:
  * Machine-level HTTP is replaced by an oracle `fetch : String →
    IssueResponse` mapping the requested URL to the trackers response.
    The JSON body is modelled as already parsed, with optional fields
    (the source reads it with dictionary `get` and defaults).
  * `aiohttp` raise_for_status raises `ClientResponseError` exactly when
    the status is 400 or larger; this library semantics is embedded in
    `raise_for_status`.
  * The regex `msc(\d{1,4})` with IGNORECASE and `finditer` semantics is
    embedded in `findMatchesAux`: at each position, the literal "msc"
    (case-insensitive) followed by at least one digit matches, the digit
    group is greedy up to 4 digits, and scanning resumes after the end
    of the whole match.  Digits are modelled as the ASCII decimal digits
    and case folding as ASCII `Char.toLower`; no claim involves
    characters outside ASCII.
  * Effects are made explicit: the result of a handler run records the
    list of URLs requested (in order), the log lines with their
    severity, and the reply sent, if any.
-/

/-! ### Module constants (msc_resolver.py lines 10-13) -/

/-- The GitHub repository where MSCs are stored. -/
def MSC_REPO : String := "matrix-org/matrix-spec-proposals"

/-- The GitHub label that denotes an issue as an MSC. -/
def PROPOSAL_LABEL : String := "proposal"

/-! ### Data model -/

/-- The `MSC` dataclass (msc_resolver.py lines 16-21). -/
structure MSC where
  id : String
  title : String
  author : String
  url : String
  deriving DecidableEq

/-- One entry of the `labels` array of the tracker response; `name` is
read with `label.get("name")`, so it is optional. -/
structure LabelObj where
  name : Option String
  deriving DecidableEq

/-- The `user` object of the tracker response; `login` is read with
`.get("login", ...)`, so it is optional. -/
structure UserObj where
  login : Option String
  deriving DecidableEq

/-- A tracker response: HTTP status plus the parsed JSON body fields the
source reads (`labels`, `title`, `user`), each optional because the
source reads them with dictionary `get` and a default. -/
structure IssueResponse where
  status : Nat
  labels : Option (List LabelObj)
  title : Option String
  user : Option UserObj
  deriving DecidableEq

/-- The `ClientResponseError` raised by aiohttp for a status of 400 or
larger. -/
inductive FetchError where
  | clientResponseError (status : Nat)
  deriving DecidableEq

/-- Message types relevant to the handler (mautrix `MessageType`): text
and emote trigger processing, notice is bot output, everything else is
collapsed into `other`. -/
inductive MessageType where
  | TEXT
  | EMOTE
  | NOTICE
  | other (s : String)
  deriving DecidableEq

/-- An incoming room message event, with the fields the handler reads:
sender, room id, event id, message type, text body, and the edit
reference (`event.content.get_edit()`). -/
structure MessageEvent where
  sender : String
  room_id : String
  event_id : String
  msgtype : MessageType
  body : String
  edit : Option String
  deriving DecidableEq

/-- Log severities used by the handler. -/
inductive LogLevel where
  | debug
  | error
  deriving DecidableEq

/-- A message posted by `client.send_notice`: mautrix sends it with
message type NOTICE. -/
structure SentNotice where
  room_id : String
  msgtype : MessageType
  body : String
  html : String
  deriving DecidableEq

/-- Model of mautrix `client.send_notice(room_id, text, html)`: the
dispatched room message carries message type NOTICE. -/
def send_notice (room_id text html : String) : SentNotice :=
  { room_id := room_id, msgtype := MessageType.NOTICE, body := text, html := html }

/-! ### Extractor: the regex `msc(\d{1,4})` with finditer semantics -/

/-- Greedily take up to `n` leading decimal digits of a character list,
returning the digits taken and the remainder. -/
def takeDigits : Nat → List Char → List Char × List Char
  | _, [] => ([], [])
  | 0, l => ([], l)
  | n + 1, c :: rest =>
    if c.isDigit then
      let p := takeDigits n rest
      (c :: p.1, p.2)
    else
      ([], c :: rest)

/-- Scan for non-overlapping matches of `msc(\d{1,4})` (IGNORECASE),
left to right, returning the captured digit groups in order.  At a
position where "msc" (case-insensitive) is followed by a digit, the
group takes that digit and greedily up to three more, and the scan
resumes after the whole match; otherwise the scan advances one
character.  The fuel argument (instantiated with the length of the
text) only establishes termination: every step consumes at least one
character and one unit of fuel. -/
def findMatchesAux : Nat → List Char → List String
  | 0, _ => []
  | _, [] => []
  | fuel + 1, m :: rest₁ =>
    match rest₁ with
    | s :: c :: d :: rest₂ =>
      if m.toLower = 'm' ∧ s.toLower = 's' ∧ c.toLower = 'c' ∧ d.isDigit then
        let p := takeDigits 3 rest₂
        String.mk (d :: p.1) :: findMatchesAux fuel p.2
      else
        findMatchesAux fuel rest₁
    | _ => findMatchesAux fuel rest₁

/-- All captured digit groups of `msc(\d{1,4})` over a text, in match
order, duplicates included (the `match` argument maubot hands to the
handler with `multiple=True`, projected to the capture group). -/
def findMatches (l : List Char) : List String :=
  findMatchesAux l.length l

/-- The dedup loop of `respond_to_message` (msc_resolver.py lines
53-56): `for _, msc_id in match: if msc_id not in msc_ids:
msc_ids.append(msc_id)`, with accumulator `acc` for `msc_ids`. -/
def collectLoop (acc : List String) : List String → List String
  | [] => acc
  | msc_id :: rest =>
    if msc_id ∈ acc then collectLoop acc rest
    else collectLoop (acc ++ [msc_id]) rest

/-- Extract the list of referenced MSC ids from a message body: regex
matches in order, with duplicates removed keeping first occurrences. -/
def extractMscIds (body : String) : List String :=
  collectLoop [] (findMatches body.data)

/-- Specification-side dedup: keep the first occurrence of every
element, drop the later duplicates.  Used to state what the dedup loop
computes. -/
def dedupFirst : List String → List String
  | [] => []
  | a :: l => a :: dedupFirst (l.filter (fun x => x != a))
  termination_by l => l.length
  decreasing_by
    simp only [List.length_cons]
    exact Nat.lt_succ_of_le (List.length_filter_le _ _)

/-! ### Resolver -/

/-- aiohttp `response.raise_for_status()`: raises `ClientResponseError`
exactly when the status is 400 or larger, otherwise does nothing. -/
def raise_for_status (status : Nat) : Except FetchError Unit :=
  if 400 ≤ status then Except.error (FetchError.clientResponseError status)
  else Except.ok ()

/-- The URL requested by `_resolve_msc` for a given id (msc_resolver.py
line 107). -/
def apiUrl (msc_id : String) : String :=
  "https://api.github.com/repos/" ++ MSC_REPO ++ "/issues/" ++ msc_id

/-- `_resolve_msc` (msc_resolver.py lines 95-133), applied to the
response the oracle returned for `apiUrl msc_id`: on a non-200 status
call `raise_for_status`; scan the labels for the proposal label and
return `none` when it is missing; otherwise build the `MSC` record with
the documented defaults for a missing title or creator. -/
def _resolve_msc (msc_id : String) (resp : IssueResponse) : Except FetchError (Option MSC) :=
  match (if resp.status ≠ 200 then raise_for_status resp.status else Except.ok ()) with
  | Except.error e => Except.error e
  | Except.ok _ =>
    let is_msc := (resp.labels.getD []).any (fun label => label.name == some PROPOSAL_LABEL)
    if !is_msc then
      Except.ok none
    else
      let msc_title := resp.title.getD "Unknown title"
      let msc_author := "@" ++ ((resp.user.getD { login := none }).login.getD "Unknown author")
      let msc_url := "https://github.com/" ++ MSC_REPO ++ "/issues/" ++ msc_id
      Except.ok (some { id := msc_id, title := msc_title, author := msc_author, url := msc_url })

/-- True exactly on `Except.ok`. -/
def exceptIsOk {ε α : Type} : Except ε α → Bool
  | Except.ok _ => true
  | Except.error _ => false

/-! ### Formatter -/

/-- `_format_msc` (msc_resolver.py lines 135-147). -/
def _format_msc (msc : MSC) (with_id : Bool) : String :=
  let formatted_str := "[" ++ msc.title ++ "](" ++ msc.url ++ ") by " ++ msc.author
  if with_id then "MSC" ++ msc.id ++ ": " ++ formatted_str
  else formatted_str

/-- The reply composition of `respond_to_message` (msc_resolver.py lines
79-89): a single record is formatted without its id, two or more are
each formatted with their id and joined with a blank line.  The caller
returns before this point when the list is empty. -/
def composeMessage : List MSC → String
  | [] => ""
  | [msc] => _format_msc msc false
  | mscs => String.intercalate "\n\n" (mscs.map (fun msc => _format_msc msc true))

/-! ### Orchestration -/

/-- State threaded through the resolution loop of `respond_to_message`:
URLs requested so far (in order), log lines so far, and the `mscs`
accumulator. -/
structure LoopState where
  fetched : List String
  logs : List (LogLevel × String)
  mscs : List MSC
  deriving DecidableEq

/-- Outcome of the resolution loop: `aborted` is the `except
ClientResponseError ... return` path, `done` is normal completion. -/
inductive LoopResult where
  | aborted (st : LoopState)
  | done (st : LoopState)
  deriving DecidableEq

/-- The state carried by either loop outcome. -/
def loopState : LoopResult → LoopState
  | LoopResult.aborted st => st
  | LoopResult.done st => st

/-- The per-id resolution loop of `respond_to_message` (msc_resolver.py
lines 58-71): for each id, log a debug line, request the API URL, and
resolve.  A `ClientResponseError` logs an error line and aborts the
whole loop; a `none` result is skipped silently; a record is appended to
the accumulator. -/
def resolveLoop (fetch : String → IssueResponse) (room_id event_id : String) :
    LoopState → List String → LoopResult
  | st, [] => LoopResult.done st
  | st, msc_id :: rest =>
    let st1 : LoopState :=
      { st with logs := st.logs ++ [(LogLevel.debug,
          "Resolving MSC" ++ msc_id ++ " in room " ++ room_id ++ " in response to " ++ event_id)] }
    let st2 : LoopState := { st1 with fetched := st1.fetched ++ [apiUrl msc_id] }
    match _resolve_msc msc_id (fetch (apiUrl msc_id)) with
    | Except.error _ =>
      LoopResult.aborted
        { st2 with logs := st2.logs ++ [(LogLevel.error, "Failed to query the GitHub API")] }
    | Except.ok none => resolveLoop fetch room_id event_id st2 rest
    | Except.ok (some msc) =>
      resolveLoop fetch room_id event_id { st2 with mscs := st2.mscs ++ [msc] } rest

/-- The observable outcome of one handler run: URLs requested, log
lines, and the reply sent, if any. -/
structure RespondResult where
  fetched : List String
  logs : List (LogLevel × String)
  sent : Option SentNotice
  deriving DecidableEq

/-- The outcome of an early `return`: nothing requested, nothing logged,
nothing sent. -/
def noAction : RespondResult :=
  { fetched := [], logs := [], sent := none }

/-- `respond_to_message` (msc_resolver.py lines 28-93).  `mxid` is the
bot identity `self.client.mxid`, `render` the external markdown
renderer, `fetch` the HTTP oracle.  Guards: self-sent events, edits,
and message types other than text and emote are ignored.  Then the ids
are extracted and deduplicated, resolved with fail-fast abort, and the
records, if any, are composed into a single reply posted with
`send_notice`. -/
def respond_to_message (mxid : String) (render : String → String)
    (fetch : String → IssueResponse) (event : MessageEvent) : RespondResult :=
  if event.sender = mxid then noAction
  else if event.edit.isSome then noAction
  else if ¬ (event.msgtype ∈ [MessageType.TEXT, MessageType.EMOTE]) then noAction
  else
    match resolveLoop fetch event.room_id event.event_id
        { fetched := [], logs := [], mscs := [] } (extractMscIds event.body) with
    | LoopResult.aborted st =>
      { fetched := st.fetched, logs := st.logs, sent := none }
    | LoopResult.done st =>
      match st.mscs with
      | [] =>
        { fetched := st.fetched,
          logs := st.logs ++ [(LogLevel.debug, "No suitable MSCs found. Not responding")],
          sent := none }
      | _ =>
        { fetched := st.fetched,
          logs := st.logs ++ [(LogLevel.debug, "Sending response to event " ++ event.event_id)],
          sent := some (send_notice event.room_id (composeMessage st.mscs)
            (render (composeMessage st.mscs))) }

deriving instance DecidableEq for Except

/-! ### Concrete fixtures (used by the witness theorems) -/

/-- A 200 response carrying the proposal label, a title and a creator. -/
def respProposal : IssueResponse :=
  { status := 200, labels := some [{ name := some "proposal" }],
    title := some "Example title", user := some { login := some "alice" } }

/-- A second 200 response carrying the proposal label. -/
def respProposalB : IssueResponse :=
  { status := 200, labels := some [{ name := some "proposal" }],
    title := some "Second title", user := some { login := some "bob" } }

/-- A 200 response whose labels do not include the proposal label. -/
def respNoLabel : IssueResponse :=
  { status := 200, labels := some [{ name := some "bug" }],
    title := some "Example title", user := some { login := some "alice" } }

/-- A 404 response. -/
def resp404 : IssueResponse :=
  { status := 404, labels := none, title := none, user := none }

/-- HTTP oracle: proposals 1 and 01 exist and carry the proposal label,
every other URL answers 404. -/
def wFetch (url : String) : IssueResponse :=
  if url = apiUrl "1" then respProposal
  else if url = apiUrl "01" then respProposalB
  else resp404

/-- The bot identity. -/
def botMxid : String := "@mscbot:example.com"

/-- A plain text message mentioning msc1, from an ordinary user. -/
def wEventText : MessageEvent :=
  { sender := "@user:example.com", room_id := "!room:example.com", event_id := "$evt1",
    msgtype := MessageType.TEXT, body := "msc1", edit := none }

/-- The same message as a notice. -/
def wEventNotice : MessageEvent :=
  { wEventText with msgtype := MessageType.NOTICE }

/-- A message whose second id fails to resolve (msc2 answers 404). -/
def wEventFail : MessageEvent :=
  { wEventText with body := "msc1 msc2 msc3" }

/-- A message mentioning msc1 and msc01, distinct only by a leading
zero. -/
def wEventZeros : MessageEvent :=
  { wEventText with body := "see msc1 and msc01" }

/-- The record resolved for id "1" under `wFetch`. -/
def wRecord : MSC :=
  { id := "1", title := "Example title", author := "@alice",
    url := "https://github.com/matrix-org/matrix-spec-proposals/issues/1" }

/-- A second record, used for the multi-record formatting witness. -/
def wRecordB : MSC :=
  { id := "01", title := "Second title", author := "@bob",
    url := "https://github.com/matrix-org/matrix-spec-proposals/issues/01" }

/-- The reply body for the single-record case of `wFetch` on "msc1". -/
def wMsg : String :=
  "[Example title](https://github.com/matrix-org/matrix-spec-proposals/issues/1) by @alice"

/-- The notice dispatched for `wEventText` under `wFetch`. -/
def wNotice : SentNotice := send_notice "!room:example.com" wMsg wMsg

/-- The reply body for the two-record case of `wFetch` on `wEventZeros`. -/
def wMsgZeros : String :=
  "MSC1: [Example title](https://github.com/matrix-org/matrix-spec-proposals/issues/1) by @alice\n\nMSC01: [Second title](https://github.com/matrix-org/matrix-spec-proposals/issues/01) by @bob"

/-! ### Helper lemmas: first-occurrence dedup -/

/-- Membership is preserved by `dedupFirst`. -/
theorem dedupFirst_mem : ∀ (l : List String) (x : String), x ∈ dedupFirst l ↔ x ∈ l := by
  intro l
  induction l using dedupFirst.induct with
  | case1 => intro x; simp [dedupFirst]
  | case2 a l ih =>
    intro x
    simp only [dedupFirst, List.mem_cons, ih, List.mem_filter, bne_iff_ne, ne_eq]
    constructor
    · rintro (rfl | ⟨hx, _⟩)
      · exact Or.inl rfl
      · exact Or.inr hx
    · rintro (rfl | hx)
      · exact Or.inl rfl
      · by_cases hax : x = a
        · exact Or.inl hax
        · exact Or.inr ⟨hx, hax⟩

/-- The output of `dedupFirst` has no duplicates. -/
theorem dedupFirst_nodup : ∀ l : List String, (dedupFirst l).Nodup := by
  intro l
  induction l using dedupFirst.induct with
  | case1 => simp [dedupFirst]
  | case2 a l ih =>
    simp only [dedupFirst, List.nodup_cons]
    refine ⟨fun hmem => ?_, ih⟩
    rw [dedupFirst_mem] at hmem
    simp [List.mem_filter] at hmem

/-- The output of `dedupFirst` is a subsequence of its input. -/
theorem dedupFirst_sublist : ∀ l : List String, List.Sublist (dedupFirst l) l := by
  intro l
  induction l using dedupFirst.induct with
  | case1 => simp [dedupFirst]
  | case2 a l ih =>
    simp only [dedupFirst]
    exact List.Sublist.cons₂ a (ih.trans (List.filter_sublist l))

/-- Filtering away the members of `acc ++ [x]` is filtering away the
members of `acc` and then the copies of `x`. -/
theorem filter_notMem_append (acc : List String) (x : String) (r : List String) :
    r.filter (fun y => decide (y ∉ acc ++ [x]))
      = (r.filter (fun y => decide (y ∉ acc))).filter (fun y => y != x) := by
  rw [List.filter_filter]
  apply List.filter_congr
  intro a _
  by_cases h1 : a ∈ acc <;> by_cases h2 : a = x <;> simp [h1, h2, List.mem_append]

/-- The dedup loop of the handler computes `dedupFirst` relative to the
ids already collected. -/
theorem collectLoop_eq (l : List String) :
    ∀ acc : List String,
      collectLoop acc l = acc ++ dedupFirst (l.filter (fun x => decide (x ∉ acc))) := by
  induction l with
  | nil => intro acc; simp [collectLoop, dedupFirst]
  | cons x r ih =>
    intro acc
    by_cases hx : x ∈ acc
    · rw [collectLoop, if_pos hx, ih]
      have hfc : List.filter (fun y => decide (y ∉ acc)) (x :: r)
          = List.filter (fun y => decide (y ∉ acc)) r := by
        simp [List.filter_cons, hx]
      rw [hfc]
    · rw [collectLoop, if_neg hx, ih]
      have hfc : List.filter (fun y => decide (y ∉ acc)) (x :: r)
          = x :: List.filter (fun y => decide (y ∉ acc)) r := by
        simp [List.filter_cons, hx]
      rw [hfc]
      simp only [dedupFirst]
      rw [← filter_notMem_append, List.append_assoc]
      rfl

/-- The extractor is `dedupFirst` of the regex matches. -/
theorem extractMscIds_eq (body : String) :
    extractMscIds body = dedupFirst (findMatches body.data) := by
  rw [extractMscIds, collectLoop_eq]
  simp

/-- The extracted id list has no duplicates. -/
theorem extractMscIds_nodup (body : String) : (extractMscIds body).Nodup := by
  rw [extractMscIds_eq]
  exact dedupFirst_nodup _

/-! ### Helper lemmas: the resolution loop -/

/-- Fail-fast abort: when every id of `pre` resolves without raising and
`bad` raises, the loop on `pre ++ bad :: post` aborts; exactly the URLs
of `pre` and of `bad` are requested (none of `post`), and an error line
is logged. -/
theorem resolveLoop_abort (fetch : String → IssueResponse) (room_id event_id : String)
    (bad : String) (post : List String)
    (hbad : exceptIsOk (_resolve_msc bad (fetch (apiUrl bad))) = false) :
    ∀ (pre : List String) (st : LoopState),
      (∀ id ∈ pre, exceptIsOk (_resolve_msc id (fetch (apiUrl id))) = true) →
      ∃ st', resolveLoop fetch room_id event_id st (pre ++ bad :: post) = LoopResult.aborted st'
        ∧ st'.fetched = st.fetched ++ (pre ++ [bad]).map apiUrl
        ∧ (LogLevel.error, "Failed to query the GitHub API") ∈ st'.logs := by
  intro pre
  induction pre with
  | nil =>
    intro st _
    simp only [List.nil_append]
    cases hres : _resolve_msc bad (fetch (apiUrl bad)) with
    | ok v => rw [hres] at hbad; simp [exceptIsOk] at hbad
    | error e =>
      have heq : resolveLoop fetch room_id event_id st (bad :: post) = LoopResult.aborted
          { fetched := st.fetched ++ [apiUrl bad],
            logs := st.logs ++ [(LogLevel.debug,
                "Resolving MSC" ++ bad ++ " in room " ++ room_id ++ " in response to " ++ event_id)]
              ++ [(LogLevel.error, "Failed to query the GitHub API")],
            mscs := st.mscs } := by
        simp only [resolveLoop, hres]
      exact ⟨_, heq, by simp, by simp⟩
  | cons a pre ih =>
    intro st hpre
    have ha : exceptIsOk (_resolve_msc a (fetch (apiUrl a))) = true := hpre a (by simp)
    have hpre' : ∀ id ∈ pre, exceptIsOk (_resolve_msc id (fetch (apiUrl id))) = true :=
      fun id hid => hpre id (by simp [hid])
    cases hres : _resolve_msc a (fetch (apiUrl a)) with
    | error e => rw [hres] at ha; simp [exceptIsOk] at ha
    | ok v =>
      cases v with
      | none =>
        obtain ⟨st', h1, h2, h3⟩ := ih
          { st with
            logs := st.logs ++ [(LogLevel.debug,
              "Resolving MSC" ++ a ++ " in room " ++ room_id ++ " in response to " ++ event_id)],
            fetched := st.fetched ++ [apiUrl a] } hpre'
        refine ⟨st', ?_, ?_, h3⟩
        · rw [List.cons_append]
          simp only [resolveLoop, hres]
          exact h1
        · rw [h2]
          simp [List.append_assoc]
      | some msc =>
        obtain ⟨st', h1, h2, h3⟩ := ih
          { fetched := st.fetched ++ [apiUrl a],
            logs := st.logs ++ [(LogLevel.debug,
              "Resolving MSC" ++ a ++ " in room " ++ room_id ++ " in response to " ++ event_id)],
            mscs := st.mscs ++ [msc] } hpre'
        refine ⟨st', ?_, ?_, h3⟩
        · rw [List.cons_append]
          simp only [resolveLoop, hres]
          exact h1
        · rw [h2]
          simp [List.append_assoc]

/-- The loop requests the URLs of some prefix of the id list, one
request per id, in order. -/
theorem resolveLoop_fetched (fetch : String → IssueResponse) (room_id event_id : String) :
    ∀ (ids : List String) (st : LoopState),
      ∃ pre suf, ids = pre ++ suf ∧
        (loopState (resolveLoop fetch room_id event_id st ids)).fetched
          = st.fetched ++ pre.map apiUrl := by
  intro ids
  induction ids with
  | nil =>
    intro st
    exact ⟨[], [], rfl, by simp [resolveLoop, loopState]⟩
  | cons a rest ih =>
    intro st
    cases hres : _resolve_msc a (fetch (apiUrl a)) with
    | error e =>
      refine ⟨[a], rest, rfl, ?_⟩
      simp [resolveLoop, hres, loopState]
    | ok v =>
      cases v with
      | none =>
        obtain ⟨pre, suf, h1, h2⟩ := ih
          { st with
            logs := st.logs ++ [(LogLevel.debug,
              "Resolving MSC" ++ a ++ " in room " ++ room_id ++ " in response to " ++ event_id)],
            fetched := st.fetched ++ [apiUrl a] }
        refine ⟨a :: pre, suf, by rw [h1, List.cons_append], ?_⟩
        simp only [resolveLoop, hres]
        rw [h2]
        simp [List.append_assoc]
      | some msc =>
        obtain ⟨pre, suf, h1, h2⟩ := ih
          { fetched := st.fetched ++ [apiUrl a],
            logs := st.logs ++ [(LogLevel.debug,
              "Resolving MSC" ++ a ++ " in room " ++ room_id ++ " in response to " ++ event_id)],
            mscs := st.mscs ++ [msc] }
        refine ⟨a :: pre, suf, by rw [h1, List.cons_append], ?_⟩
        simp only [resolveLoop, hres]
        rw [h2]
        simp [List.append_assoc]

/-- Distinct ids yield distinct request URLs. -/
theorem apiUrl_injective : Function.Injective apiUrl := by
  intro a b h
  unfold apiUrl at h
  have h' := congrArg String.data h
  simp only [String.data_append, List.append_assoc] at h'
  exact String.ext
    (List.append_cancel_left (List.append_cancel_left (List.append_cancel_left h')))

/-! ### Helper lemmas: the orchestrator -/

/-- Any of the three guard conditions makes the handler return without
any observable effect. -/
theorem respond_suppressed (mxid : String) (render : String → String)
    (fetch : String → IssueResponse) (event : MessageEvent)
    (h : event.sender = mxid ∨ event.edit ≠ none
      ∨ (event.msgtype ≠ MessageType.TEXT ∧ event.msgtype ≠ MessageType.EMOTE)) :
    respond_to_message mxid render fetch event = noAction := by
  unfold respond_to_message
  split_ifs with h1 h2 h3
  · rfl
  · rfl
  · exfalso
    rcases h with h | h | h
    · exact h1 h
    · exact h2 (Option.ne_none_iff_isSome.mp h)
    · simp only [List.mem_cons, List.not_mem_nil, or_false] at h3
      rcases h3 with hm | hm
      · exact h.1 hm
      · exact h.2 hm
  · rfl

/-- Every reply dispatched by the handler carries message type NOTICE. -/
theorem respond_sent_isNotice (mxid : String) (render : String → String)
    (fetch : String → IssueResponse) (event : MessageEvent) (sn : SentNotice)
    (h : (respond_to_message mxid render fetch event).sent = some sn) :
    sn.msgtype = MessageType.NOTICE := by
  unfold respond_to_message at h
  split_ifs at h with h1 h2 h3
  · simp [noAction] at h
  · simp [noAction] at h
  · split at h
    · simp at h
    · split at h
      · simp at h
      · simp only [Option.some.injEq] at h
        rw [← h]
        rfl
  · simp [noAction] at h

/-- A notice-type event is suppressed before the extractor runs. -/
theorem respond_notice_suppressed (mxid : String) (render : String → String)
    (fetch : String → IssueResponse) (event : MessageEvent)
    (h : event.msgtype = MessageType.NOTICE) :
    respond_to_message mxid render fetch event = noAction :=
  respond_suppressed mxid render fetch event
    (Or.inr (Or.inr ⟨by rw [h]; decide, by rw [h]; decide⟩))

/-- No URL is requested twice during one handler run: the requested URLs
are the images of a prefix of the deduplicated id list. -/
theorem respond_fetched_nodup (mxid : String) (render : String → String)
    (fetch : String → IssueResponse) (event : MessageEvent) :
    (respond_to_message mxid render fetch event).fetched.Nodup := by
  unfold respond_to_message
  split_ifs with h1 h2 h3
  · simp [noAction]
  · simp [noAction]
  · obtain ⟨pre, suf, hsplit, hfetched⟩ := resolveLoop_fetched fetch event.room_id event.event_id
      (extractMscIds event.body) { fetched := [], logs := [], mscs := [] }
    have hnd : pre.Nodup := by
      have := extractMscIds_nodup event.body
      rw [hsplit] at this
      exact this.of_append_left
    have hndm : (pre.map apiUrl).Nodup := hnd.map apiUrl_injective
    cases hloop : resolveLoop fetch event.room_id event.event_id
        { fetched := [], logs := [], mscs := [] } (extractMscIds event.body) with
    | aborted st =>
      rw [hloop] at hfetched
      simp only [loopState, List.nil_append] at hfetched
      show st.fetched.Nodup
      rw [hfetched]
      exact hndm
    | done st =>
      rw [hloop] at hfetched
      simp only [loopState, List.nil_append] at hfetched
      obtain ⟨f, lg, ms⟩ := st
      cases ms with
      | nil =>
        show f.Nodup
        rw [show f = List.map apiUrl pre from hfetched]
        exact hndm
      | cons m rest2 =>
        show f.Nodup
        rw [show f = List.map apiUrl pre from hfetched]
        exact hndm
  · simp [noAction]



/-! ### The claims -/

/-- C1: if resolving any one extracted identifier raises a fetch
failure, handling of the entire message aborts: exactly the identifiers
up to and including the failing one are requested (the remaining ones
are never looked up), no reply of any kind is posted to the room, and
the failure is reported on the error log channel. -/
theorem c1_fetch_failure_aborts_message (mxid : String) (render : String → String)
    (fetch : String → IssueResponse) (event : MessageEvent)
    (pre : List String) (bad : String) (post : List String)
    (hsender : event.sender ≠ mxid) (hedit : event.edit = none)
    (htype : event.msgtype = MessageType.TEXT ∨ event.msgtype = MessageType.EMOTE)
    (hids : extractMscIds event.body = pre ++ bad :: post)
    (hpre : ∀ id ∈ pre, exceptIsOk (_resolve_msc id (fetch (apiUrl id))) = true)
    (hbad : exceptIsOk (_resolve_msc bad (fetch (apiUrl bad))) = false) :
    (respond_to_message mxid render fetch event).sent = none
    ∧ (respond_to_message mxid render fetch event).fetched = (pre ++ [bad]).map apiUrl
    ∧ (LogLevel.error, "Failed to query the GitHub API")
        ∈ (respond_to_message mxid render fetch event).logs := by
  obtain ⟨st', h1, h2, h3⟩ := resolveLoop_abort fetch event.room_id event.event_id bad post hbad
    pre { fetched := [], logs := [], mscs := [] } hpre
  have hmem : event.msgtype ∈ [MessageType.TEXT, MessageType.EMOTE] := by
    rcases htype with h | h <;> simp [h]
  have hresp : respond_to_message mxid render fetch event
      = { fetched := st'.fetched, logs := st'.logs, sent := none } := by
    unfold respond_to_message
    rw [if_neg hsender, if_neg (by simp [hedit]), if_neg (not_not_intro hmem), hids, h1]
  rw [hresp]
  exact ⟨rfl, by simpa using h2, h3⟩

/-- C1 witness: in "msc1 msc2 msc3" under `wFetch`, msc1 resolves, msc2
answers 404; the run requests only the URLs of 1 and 2, posts nothing,
and logs an error. -/
theorem c1_fetch_failure_aborts_message_witness :
    (respond_to_message botMxid (fun s => s) wFetch wEventFail).sent = none
    ∧ (respond_to_message botMxid (fun s => s) wFetch wEventFail).fetched
        = (["1"] ++ ["2"]).map apiUrl
    ∧ (LogLevel.error, "Failed to query the GitHub API")
        ∈ (respond_to_message botMxid (fun s => s) wFetch wEventFail).logs :=
  c1_fetch_failure_aborts_message botMxid (fun s => s) wFetch wEventFail ["1"] "2" ["3"]
    (by decide) (by decide) (Or.inl (by decide)) (by decide) (by decide) (by decide)

/-- C2: a message from the bot itself, an edit, or a message whose type
is neither text nor emote (notably a notice) produces no reply at all. -/
theorem c2_guards_suppress_reply (mxid : String) (render : String → String)
    (fetch : String → IssueResponse) (event : MessageEvent)
    (h : event.sender = mxid ∨ event.edit ≠ none
      ∨ (event.msgtype ≠ MessageType.TEXT ∧ event.msgtype ≠ MessageType.EMOTE)) :
    (respond_to_message mxid render fetch event).sent = none
    ∧ respond_to_message mxid render fetch event = noAction := by
  have hs := respond_suppressed mxid render fetch event h
  exact ⟨by rw [hs]; rfl, hs⟩

/-- C2 witness: a notice-type message mentioning msc1 is suppressed. -/
theorem c2_guards_suppress_reply_witness :
    (respond_to_message botMxid (fun s => s) wFetch wEventNotice).sent = none
    ∧ respond_to_message botMxid (fun s => s) wFetch wEventNotice = noAction :=
  c2_guards_suppress_reply botMxid (fun s => s) wFetch wEventNotice
    (Or.inr (Or.inr ⟨by decide, by decide⟩))

/-- C3: the extractor returns the digit groups matched by the pattern
(case-insensitive "msc" + 1-4 digits), with duplicates removed keeping
each identifier at its first occurrence, so the output is a
duplicate-free subsequence of the match list with the same members;
"check msc1234 and MSC1234 also msc42" yields ["1234", "42"]. -/
theorem c3_extractor_dedup_first_occurrence (body : String) :
    extractMscIds body = dedupFirst (findMatches body.data)
    ∧ (extractMscIds body).Nodup
    ∧ List.Sublist (extractMscIds body) (findMatches body.data)
    ∧ (∀ s : String, s ∈ extractMscIds body ↔ s ∈ findMatches body.data)
    ∧ extractMscIds "check msc1234 and MSC1234 also msc42" = ["1234", "42"] := by
  refine ⟨extractMscIds_eq body, extractMscIds_nodup body, ?_, ?_, by decide⟩
  · rw [extractMscIds_eq]
    exact dedupFirst_sublist _
  · intro s
    rw [extractMscIds_eq]
    exact dedupFirst_mem _ s

/-- C4: a 200 response whose labels do not include the proposal label
resolves to no record without raising, whatever the other fields hold;
and a record is only ever constructed when the label is present. -/
theorem c4_missing_label_yields_no_record :
    (∀ (msc_id : String) (resp : IssueResponse), resp.status = 200 →
      (∀ lab ∈ resp.labels.getD [], lab.name ≠ some PROPOSAL_LABEL) →
      _resolve_msc msc_id resp = Except.ok none)
    ∧ (∀ (msc_id : String) (resp : IssueResponse) (msc : MSC),
      _resolve_msc msc_id resp = Except.ok (some msc) →
      ∃ lab ∈ resp.labels.getD [], lab.name = some PROPOSAL_LABEL) := by
  constructor
  · intro msc_id resp hstatus hlab
    have hany : (resp.labels.getD []).any
        (fun label => label.name == some PROPOSAL_LABEL) = false := by
      rw [List.any_eq_false]
      intro lab hmem
      simpa using hlab lab hmem
    unfold _resolve_msc
    rw [hstatus]
    simp [hany]
  · intro msc_id resp msc h
    by_cases hany : (resp.labels.getD []).any
        (fun label => label.name == some PROPOSAL_LABEL) = true
    · rw [List.any_eq_true] at hany
      obtain ⟨lab, hmem, hlab⟩ := hany
      exact ⟨lab, hmem, by simpa using hlab⟩
    · exfalso
      rw [Bool.not_eq_true] at hany
      unfold _resolve_msc at h
      split at h
      · simp at h
      · simp [hany] at h

/-- C4 witness: a 200 response labelled only "bug" resolves to no
record, and the labelled `respProposal` does contain the proposal
label. -/
theorem c4_missing_label_yields_no_record_witness :
    _resolve_msc "1" respNoLabel = Except.ok none
    ∧ ∃ lab ∈ respProposal.labels.getD [], lab.name = some PROPOSAL_LABEL :=
  ⟨c4_missing_label_yields_no_record.1 "1" respNoLabel (by decide) (by decide),
   c4_missing_label_yields_no_record.2 "1" respProposal wRecord (by decide)⟩

/-- C5 counterexample: 304 is not a 2xx status, yet the resolver
returns "no record" instead of raising: the source guards
`raise_for_status` with `status != 200`, and aiohttp only raises at
status 400 and above, so a non-2xx status below 400 is processed like a
success. -/
theorem c5_counterexample_status_304 :
    (304 < 200 ∨ 300 ≤ 304)
    ∧ _resolve_msc "1234" { status := 304, labels := some [], title := none, user := none }
        = Except.ok none :=
  ⟨Or.inr (by decide), by decide⟩

/-- C5 amended: every response with status 400 or above (in particular
404 and 500) is surfaced as a raised fetch failure rather than a record
or a no-record result, and within one handler run no URL is requested
twice, so the failed request is never retried. -/
theorem c5_amended_error_status_raises :
    (∀ (msc_id : String) (resp : IssueResponse), 400 ≤ resp.status →
      _resolve_msc msc_id resp = Except.error (FetchError.clientResponseError resp.status))
    ∧ (∀ (mxid : String) (render : String → String) (fetch : String → IssueResponse)
        (event : MessageEvent), (respond_to_message mxid render fetch event).fetched.Nodup) := by
  constructor
  · intro msc_id resp h
    have hne : resp.status ≠ 200 := by omega
    unfold _resolve_msc raise_for_status
    rw [if_pos hne, if_pos h]
  · exact respond_fetched_nodup

/-- C5 witness: 404 and 500 raise, and the failing run of `wEventFail`
requests each URL at most once. -/
theorem c5_amended_error_status_raises_witness :
    _resolve_msc "1234" resp404 = Except.error (FetchError.clientResponseError 404)
    ∧ _resolve_msc "1234" { status := 500, labels := none, title := none, user := none }
        = Except.error (FetchError.clientResponseError 500)
    ∧ (respond_to_message botMxid (fun s => s) wFetch wEventFail).fetched.Nodup :=
  ⟨c5_amended_error_status_raises.1 "1234" resp404 (by decide),
   c5_amended_error_status_raises.1 "1234"
     { status := 500, labels := none, title := none, user := none } (by decide),
   c5_amended_error_status_raises.2 botMxid (fun s => s) wFetch wEventFail⟩

/-- C6: one record is rendered `[title](url) by author` with no id
prefix; two or more records are each rendered `MSCid: [title](url) by
author`, joined with a blank line, in list order; the single record
{id "1234", title "Example", author "@alice", url "https://x/1234"}
yields `[Example](https://x/1234) by @alice`. -/
theorem c6_formatter_layout :
    (∀ msc : MSC,
      composeMessage [msc] = "[" ++ msc.title ++ "](" ++ msc.url ++ ") by " ++ msc.author)
    ∧ (∀ (msc : MSC) (rest : List MSC), rest ≠ [] →
        composeMessage (msc :: rest)
          = String.intercalate "\n\n" ((msc :: rest).map
              (fun m => "MSC" ++ m.id ++ ": "
                ++ ("[" ++ m.title ++ "](" ++ m.url ++ ") by " ++ m.author))))
    ∧ composeMessage [(⟨"1234", "Example", "@alice", "https://x/1234"⟩ : MSC)]
        = "[Example](https://x/1234) by @alice" := by
  refine ⟨fun msc => rfl, ?_, by decide⟩
  intro msc rest h
  cases rest with
  | nil => exact absurd rfl h
  | cons b bs => rfl

/-- C6 witness: the two fixture records are joined with a blank line,
each with its MSCid prefix, in order. -/
theorem c6_formatter_layout_witness :
    composeMessage [wRecord, wRecordB]
      = String.intercalate "\n\n" ([wRecord, wRecordB].map
          (fun m => "MSC" ++ m.id ++ ": "
            ++ ("[" ++ m.title ++ "](" ++ m.url ++ ") by " ++ m.author))) :=
  c6_formatter_layout.2.1 wRecord [wRecordB] (by decide)

/-- C7: a 200 response carrying the proposal label yields a record with
the identifier unchanged, the response title (default "Unknown title"
when absent), "@" prepended to the creator login (default
"@Unknown author" when the creator is absent), and the URL built from
the configured repository and the identifier. -/
theorem c7_success_record_fields (msc_id : String) (resp : IssueResponse)
    (hstatus : resp.status = 200)
    (hlabel : ∃ lab ∈ resp.labels.getD [], lab.name = some PROPOSAL_LABEL) :
    ∃ msc : MSC, _resolve_msc msc_id resp = Except.ok (some msc)
      ∧ msc.id = msc_id
      ∧ (∀ t, resp.title = some t → msc.title = t)
      ∧ (resp.title = none → msc.title = "Unknown title")
      ∧ (∀ u l, resp.user = some u → u.login = some l → msc.author = "@" ++ l)
      ∧ (resp.user = none → msc.author = "@" ++ "Unknown author")
      ∧ msc.url = "https://github.com/" ++ MSC_REPO ++ "/issues/" ++ msc_id := by
  have hany : (resp.labels.getD []).any
      (fun label => label.name == some PROPOSAL_LABEL) = true := by
    rw [List.any_eq_true]
    obtain ⟨lab, hmem, hl⟩ := hlabel
    exact ⟨lab, hmem, by simp [hl]⟩
  refine ⟨{ id := msc_id,
            title := resp.title.getD "Unknown title",
            author := "@" ++ ((resp.user.getD { login := none }).login.getD "Unknown author"),
            url := "https://github.com/" ++ MSC_REPO ++ "/issues/" ++ msc_id },
    ?_, rfl, ?_, ?_, ?_, ?_, rfl⟩
  · unfold _resolve_msc
    rw [hstatus]
    simp [hany]
  · intro t ht
    simp [ht]
  · intro ht
    simp [ht]
  · intro u l hu hl
    simp [hu, hl]
  · intro hu
    simp [hu]

/-- C7 witness: the fields of the record resolved from `respProposal`. -/
theorem c7_success_record_fields_witness :
    ∃ msc : MSC, _resolve_msc "1234" respProposal = Except.ok (some msc)
      ∧ msc.id = "1234"
      ∧ (∀ t, respProposal.title = some t → msc.title = t)
      ∧ (respProposal.title = none → msc.title = "Unknown title")
      ∧ (∀ u l, respProposal.user = some u → u.login = some l → msc.author = "@" ++ l)
      ∧ (respProposal.user = none → msc.author = "@" ++ "Unknown author")
      ∧ msc.url = "https://github.com/" ++ MSC_REPO ++ "/issues/" ++ "1234" :=
  c7_success_record_fields "1234" respProposal (by decide) (by decide)

/-- C8: "msc12345" yields exactly one match, the first four digits of
the run, both before and after deduplication. -/
theorem c8_long_digit_run_first_four :
    findMatches "msc12345".data = ["1234"]
    ∧ extractMscIds "msc12345" = ["1234"] :=
  ⟨by decide, by decide⟩

/-- C9: every reply the handler posts is dispatched as a notice; the
handler posts nothing for a notice-type event; hence feeding any posted
reply back in as an incoming message, from any sender, produces no
further reply. -/
theorem c9_replies_are_notices_and_ignored :
    (∀ (mxid : String) (render : String → String) (fetch : String → IssueResponse)
        (event : MessageEvent) (sn : SentNotice),
      (respond_to_message mxid render fetch event).sent = some sn →
      sn.msgtype = MessageType.NOTICE)
    ∧ (∀ (mxid : String) (render : String → String) (fetch : String → IssueResponse)
        (event : MessageEvent), event.msgtype = MessageType.NOTICE →
      (respond_to_message mxid render fetch event).sent = none)
    ∧ (∀ (mxid mxid2 sender2 eid2 : String) (render render2 : String → String)
        (fetch fetch2 : String → IssueResponse) (event : MessageEvent) (sn : SentNotice),
      (respond_to_message mxid render fetch event).sent = some sn →
      (respond_to_message mxid2 render2 fetch2
        { sender := sender2, room_id := sn.room_id, event_id := eid2,
          msgtype := sn.msgtype, body := sn.body, edit := none }).sent = none) := by
  refine ⟨respond_sent_isNotice, ?_, ?_⟩
  · intro mxid render fetch event h
    rw [respond_notice_suppressed mxid render fetch event h]
    rfl
  · intro mxid mxid2 sender2 eid2 render render2 fetch fetch2 event sn h
    have hnote := respond_sent_isNotice mxid render fetch event sn h
    rw [respond_notice_suppressed mxid2 render2 fetch2 _ (by simp [hnote])]
    rfl

/-- C9 witness: the reply to `wEventText` is the notice `wNotice`, and
feeding it back as an event yields no reply. -/
theorem c9_replies_are_notices_and_ignored_witness :
    wNotice.msgtype = MessageType.NOTICE
    ∧ (respond_to_message botMxid (fun s => s) wFetch wEventNotice).sent = none
    ∧ (respond_to_message botMxid (fun s => s) wFetch
        { sender := "@user:example.com", room_id := wNotice.room_id, event_id := "$evt2",
          msgtype := wNotice.msgtype, body := wNotice.body, edit := none }).sent = none :=
  ⟨c9_replies_are_notices_and_ignored.1 botMxid (fun s => s) wFetch wEventText wNotice
     (by decide),
   c9_replies_are_notices_and_ignored.2.1 botMxid (fun s => s) wFetch wEventNotice (by decide),
   c9_replies_are_notices_and_ignored.2.2 botMxid botMxid "@user:example.com" "$evt2"
     (fun s => s) (fun s => s) wFetch wFetch wEventText wNotice (by decide)⟩

/-- C10: "msc1" and "msc01" in one message are both kept by the
string-equality dedup, each is looked up by its own URL, and the reply
carries two records with their distinct literal ids and urls. -/
theorem c10_leading_zeros_distinct :
    extractMscIds "see msc1 and msc01" = ["1", "01"]
    ∧ (respond_to_message botMxid (fun s => s) wFetch wEventZeros).fetched
        = [apiUrl "1", apiUrl "01"]
    ∧ (respond_to_message botMxid (fun s => s) wFetch wEventZeros).sent
        = some (send_notice "!room:example.com" wMsgZeros wMsgZeros) :=
  ⟨by decide, by decide, by decide⟩
